import Mathlib

/-!
Verification of the ActiveTargetSim core (geometry builder and event/step
diagnostics pipeline) against its specification.

Shallow embedding conventions:
* Lengths are in Geant4 internal units (mm = 1, cm = 10); energies in MeV.
  All layout arithmetic in the source is exact on these values, so `ℚ` is
  used for the numeric type.
* A `G4LogicalVolume*` is modelled by its pointer identity, a natural
  number (`VolId`): two distinct volumes have distinct identities even when
  their attributes coincide, and `==` on pointers is equality of `VolId`.
* The square root used for the radial stop distance (`std::sqrt`) is an
  external library call; the stepping action is parametrised by the
  function `sqrt : ℚ → ℚ` supplied by the environment.
* Histogram fills performed through `G4AnalysisManager::FillH1(id, v)` are
  recorded as an append-only list of `(id, value)` pairs.
-/

namespace ActiveTargetSim

/-- Pointer identity of a `G4LogicalVolume`. -/
abbrev VolId := Nat

/-- The Geant4 track statuses distinguished by `SteppingAction` (only
`fStopAndKill` is ever tested by the code). -/
inductive TrackStatus where
  | fAlive
  | fStopButAlive
  | fStopAndKill
  | fKillTrackAndSecondaries
  deriving DecidableEq

/-- The data of one step callback, as read off the `G4Step` / `G4Track`
accessors used in `SteppingAction::UserSteppingAction`. -/
structure StepRecord where
  particleName : String
  currentStepNumber : Nat
  trackStatus : TrackStatus
  posX : ℚ
  posY : ℚ
  posZ : ℚ
  kineticEnergy : ℚ
  preStepVolume : VolId
  preStepVolumeName : String
  deriving DecidableEq

/-- Embeds `DetectorConstruction::GetTargetNVolume` (DetectorConstruction.cc,
lines 128-134): returns the n-th registered target volume when `n` is in
range and the null pointer (`none`) otherwise. -/
def GetTargetNVolume (fTargetVolumes : List VolId) (n : Nat) : Option VolId :=
  if h : n < fTargetVolumes.length then some (fTargetVolumes.get ⟨n, h⟩)
  else none

/-- Helper for the index-resolution loop of
`SteppingAction::UserSteppingAction` (SteppingAction.cc, lines 144-158):
scan the remaining registry entries, `k` being the index of the first one;
return the index of the first entry whose pointer equals `vol`, `-1` when
none matches. -/
def resolveScan (vol : VolId) : List VolId → Nat → Int
  | [], _ => -1
  | t :: rest, k => if vol = t then (k : Int) else resolveScan vol rest (k + 1)

/-- Embeds the volume-to-index resolution loop of
`SteppingAction::UserSteppingAction`: `targetIndex` starts at `-1` and the
loop over `i < GetNumTargetVolumes()` breaks at the first `i` with
`vol == GetTargetNVolume(i)`. -/
def resolveTargetIndex (fTargetVolumes : List VolId) (vol : VolId) : Int :=
  resolveScan vol fTargetVolumes 0

/-- State of `EventAction` (EventAction.hh): the single retention flag. -/
structure EventActionState where
  fKeepThisEvent : Bool
  deriving DecidableEq

/-- Embeds `EventAction::BeginOfEventAction` (EventAction.cc, lines 40-44):
resets the retention flag. -/
def EventAction.beginOfEventAction (_ : EventActionState) : EventActionState :=
  { fKeepThisEvent := false }

/-- Embeds `EventAction::SetKeepEvent` (EventAction.cc, lines 66-69). -/
def EventAction.setKeepEvent (_ : EventActionState) (keep : Bool) : EventActionState :=
  { fKeepThisEvent := keep }

/-- Embeds `EventAction::EndOfEventAction` (EventAction.cc, lines 51-59):
returns whether `KeepTheCurrentEvent()` is issued to the engine. -/
def EventAction.endOfEventAction (s : EventActionState) : Bool :=
  s.fKeepThisEvent

/-- Fills recorded through `G4AnalysisManager`: `(histogram id, value)`
pairs in fill order. -/
structure AnalysisState where
  fills : List (Nat × ℚ)
  deriving DecidableEq

/-- Embeds `analysisManager->FillH1(id, v)`: append-only. -/
def FillH1 (s : AnalysisState) (id : Nat) (v : ℚ) : AnalysisState :=
  { fills := s.fills ++ [(id, v)] }

/-- Combined mutable state visible to one step callback. -/
structure SteppingOutcome where
  analysis : AnalysisState
  eventAction : EventActionState
  deriving DecidableEq

/-- Embeds `SteppingAction::UserSteppingAction` (SteppingAction.cc, lines
87-188), with the `dynamic_cast` to `EventAction` succeeding as it does in
the program built by `main.cc`.  Control flow mirrors the source:
return early unless the species is mu+ or mu-; call `SetKeepEvent(true)`;
on step number 1 fill histogram 0 with the kinetic energy; on
`fStopAndKill` fill histogram 3 with r, histogram 1 with z, resolve the
pre-step volume against the registry and fill histogram 2 with the index
only when it is nonnegative, and when the pre-step volume is named
"DTGasLogical" fill histograms 4 (z) and 5 (r). -/
def UserSteppingAction (sqrt : ℚ → ℚ) (fTargetVolumes : List VolId)
    (step : StepRecord) (st : SteppingOutcome) : SteppingOutcome :=
  if step.particleName ≠ "mu+" ∧ step.particleName ≠ "mu-" then st
  else
    let st1 := { st with eventAction := EventAction.setKeepEvent st.eventAction true }
    let st2 := if step.currentStepNumber = 1 then
        { st1 with analysis := FillH1 st1.analysis 0 step.kineticEnergy }
      else st1
    if step.trackStatus = TrackStatus.fStopAndKill then
      let r := sqrt (step.posX * step.posX + step.posY * step.posY)
      let st3 := { st2 with analysis := FillH1 st2.analysis 3 r }
      let st4 := { st3 with analysis := FillH1 st3.analysis 1 step.posZ }
      let targetIndex := resolveTargetIndex fTargetVolumes step.preStepVolume
      let st5 := if 0 ≤ targetIndex then
          { st4 with analysis := FillH1 st4.analysis 2 (targetIndex : ℚ) }
        else st4
      if step.preStepVolumeName = "DTGasLogical" then
        let st6 := { st5 with analysis := FillH1 st5.analysis 4 step.posZ }
        { st6 with analysis := FillH1 st6.analysis 5 r }
      else st5
    else st2

/-- Shape of one histogram created through
`analysisManager->CreateH1(name, title, nbins, lo, hi)`. -/
structure H1Def where
  name : String
  title : String
  nbins : Nat
  lo : ℚ
  hi : ℚ
  deriving DecidableEq

/-- The ROOT-object members of `RunAction` (RunAction.hh, lines 82-91),
each initialised to the null pointer and — in the code as written — never
assigned afterwards.  A `TH1D` is modelled by its list of filled values. -/
structure RunActionState where
  fEnergyHist : Option (List ℚ)
  fMuonStoppingHist : Option (List ℚ)
  deriving DecidableEq

/-- Embeds the `RunAction` constructor together with the in-class member
initialisers (RunAction.cc, lines 31-33 and RunAction.hh, lines 82-91):
both histogram pointers start null. -/
def RunAction.initState : RunActionState :=
  { fEnergyHist := none, fMuonStoppingHist := none }

/-- Embeds `RunAction::BeginOfRunAction` (RunAction.cc, lines 61-74): the
member pointers are untouched and exactly four histograms are created
through the analysis manager, receiving ids 0,1,2,3 in creation order. -/
def RunAction.beginOfRunAction (s : RunActionState) : RunActionState × List H1Def :=
  (s,
    [ { name := "MuonEnergy", title := "Muon Creation Energy (MeV)",
        nbins := 100, lo := 0, hi := 200 },
      { name := "MuonStopZ", title := "Muon Stopping Z Position (mm)",
        nbins := 100, lo := -150, hi := 150 },
      { name := "MuonStopTarget", title := "Muon Stopped in Target Layer (int)",
        nbins := 10, lo := 0, hi := 10 },
      { name := "MuonStopRadius", title := "Muon radial stop distance [mm]",
        nbins := 100, lo := 0, hi := 50 } ])

/-- Histogram ids assigned by `CreateH1` at run start: consecutive from 0. -/
def createdH1Ids (s : RunActionState) : List Nat :=
  List.range (RunAction.beginOfRunAction s).2.length

/-- Embeds `RunAction::GetMuonStoppingHistogram` (RunAction.hh, line 80). -/
def RunAction.getMuonStoppingHistogram (s : RunActionState) : Option (List ℚ) :=
  s.fMuonStoppingHist

/-- Embeds `TrackingAction::PostUserTrackingAction` (TrackingAction.cc,
lines 74-97): for mu+ or mu- the stop-z value is filled into the
run-action histogram only when the run action exists and
`GetMuonStoppingHistogram()` is non-null; the return value is the sample
appended to that secondary histogram, if any. -/
def TrackingAction.postUserTrackingAction (runAction : Option RunActionState)
    (particleName : String) (stopZ : ℚ) : Option ℚ :=
  if particleName = "mu+" ∨ particleName = "mu-" then
    match runAction with
    | some ra =>
      match RunAction.getMuonStoppingHistogram ra with
      | some _ => some stopZ
      | none => none
    | none => none
  else none

/-- Scope of the magnetic-field assignment a geometry variant performs:
either the process-wide field manager
(`G4TransportationManager::...->GetFieldManager()->SetDetectorField`) or a
fresh `G4FieldManager` attached to the D-T gas logical volume only
(`logicDT->SetFieldManager(localFieldManager, true)`). -/
inductive FieldScope where
  | global
  | volumeLocalGas
  deriving DecidableEq

/-- Placement data of the appended D-T gas region. -/
structure GasRegion where
  thickness : ℚ
  zPos : ℚ
  deriving DecidableEq

/-- Result of one geometry constructor: the z centers of the volumes pushed
into `fTargetVolumes` in construction order, the appended gas region if
any, the recorded `fDTZ*` members (header defaults 0, DetectorConstruction.hh
lines 103-113, overwritten only where the source assigns them), and the
field-attachment scope. -/
structure GeometryResult where
  targetZ : List ℚ
  gas : Option GasRegion
  fDTZCenter : ℚ := 0
  fDTZStart : ℚ := 0
  fDTZEnd : ℚ := 0
  fieldScope : FieldScope
  deriving DecidableEq

/-- Embeds `DetectorConstruction::ConstructCarbonStack`
(DetectorConstruction.cc, lines 163-231): 5 carbon plates of 2 mm
thickness and 10 mm gaps, centered; plate i is registered at
`startZ + i*(plateThickness + gap)`; no gas region; the uniform field is
set on the global field manager. -/
def constructCarbonStack : GeometryResult :=
  let nPlates : Nat := 5
  let plateThickness : ℚ := 2
  let gap : ℚ := 10
  let totalLength : ℚ := (nPlates : ℚ) * plateThickness + ((nPlates : ℚ) - 1) * gap
  let startZ : ℚ := -totalLength / 2 + plateThickness / 2
  { targetZ := (List.range nPlates).map (fun i => startZ + (i : ℚ) * (plateThickness + gap)),
    gas := none,
    fieldScope := FieldScope.global }

/-- Embeds the layer loop of `DetectorConstruction::ConstructAlternatingLayers`
(DetectorConstruction.cc, lines 264-286): each iteration places a tungsten
layer at `zPos + tungstenThickness/2`, advances `zPos`, places a graphite
layer at `zPos + graphiteThickness/2`, advances `zPos`, registering both.
Returns the registered centers and the final `zPos`. -/
def alternatingLoop (tungstenThickness graphiteThickness : ℚ) :
    Nat → ℚ → List ℚ × ℚ
  | 0, zPos => ([], zPos)
  | n + 1, zPos =>
    let wCenter := zPos + tungstenThickness / 2
    let zAfterW := zPos + tungstenThickness
    let cCenter := zAfterW + graphiteThickness / 2
    let zAfterC := zAfterW + graphiteThickness
    let rest := alternatingLoop tungstenThickness graphiteThickness n zAfterC
    (wCenter :: cCenter :: rest.1, rest.2)

/-- Embeds `DetectorConstruction::ConstructAlternatingLayers`
(DetectorConstruction.cc, lines 246-340): 5 tungsten/graphite pairs
starting at `-nLayers*(tW+tC)/2`, then a 10 cm D-T gas region placed at
`zPos + thickness/2`; the `fDTZ*` members are NOT assigned by this variant
and keep their header defaults; the field is a local manager on the gas
volume only. -/
def constructAlternatingLayers : GeometryResult :=
  let nLayers : Nat := 5
  let tungstenThickness : ℚ := 1
  let graphiteThickness : ℚ := 2
  let zPos0 : ℚ := -(nLayers : ℚ) * (tungstenThickness + graphiteThickness) / 2
  let layers := alternatingLoop tungstenThickness graphiteThickness nLayers zPos0
  let dtThickness : ℚ := 100
  let dtZPos : ℚ := layers.2 + dtThickness / 2
  { targetZ := layers.1,
    gas := some { thickness := dtThickness, zPos := dtZPos },
    fieldScope := FieldScope.volumeLocalGas }

/-- Embeds `DetectorConstruction::ConstructStackedTargetGeometry`
(DetectorConstruction.cc, lines 355-451): a graphite target at −10 cm (not
registered), 5 tungsten converters of 3 mm at `startZ + i*(3 + 1)` with
`startZ = −10 cm + 1 mm + 1 mm`, then a 10 cm D-T gas region at
`lastConverterZ + 1.5 + 50 + 1`; `fDTZ*` recorded; local field on the gas
volume. -/
def constructStackedTargetGeometry : GeometryResult :=
  let targetThickness : ℚ := 1
  let converterThickness : ℚ := 3
  let numConverters : Nat := 5
  let startZ : ℚ := -100 + targetThickness + 1
  let dtThickness : ℚ := 100
  let lastConverterZ : ℚ := startZ + ((numConverters : ℚ) - 1) * (converterThickness + 1)
  let dtZPos : ℚ := lastConverterZ + converterThickness / 2 + dtThickness / 2 + 1
  { targetZ := (List.range numConverters).map
      (fun i => startZ + (i : ℚ) * (converterThickness + 1)),
    gas := some { thickness := dtThickness, zPos := dtZPos },
    fDTZCenter := dtZPos,
    fDTZStart := dtZPos - dtThickness / 2,
    fDTZEnd := dtZPos + dtThickness / 2,
    fieldScope := FieldScope.volumeLocalGas }

/-- Embeds the gradient-stack loop of
`DetectorConstruction::ConstructOpenMuonTarget` (DetectorConstruction.cc,
lines 499-514): for each thickness t, advance `zPos` by t/2, place the
converter there, then advance by t/2 + gap. -/
def openMuonLoop (gap : ℚ) : List ℚ → ℚ → List ℚ × ℚ
  | [], zPos => ([], zPos)
  | t :: rest, zPos =>
    let center := zPos + t / 2
    let zNext := center + t / 2 + gap
    let others := openMuonLoop gap rest zNext
    (center :: others.1, others.2)

/-- Embeds `DetectorConstruction::ConstructOpenMuonTarget`
(DetectorConstruction.cc, lines 466-557): graphite target at −10 cm (not
registered), tungsten converters of thicknesses {1, 0.5, 0.5} mm with 5 mm
gaps starting from `zPos = −10 cm + 1 mm + 1 mm`, then a 10 cm D-T gas
region at `zPos + 10 mm + thickness/2`; `fDTZ*` recorded; local field on
the gas volume. -/
def constructOpenMuonTarget : GeometryResult :=
  let targetThickness : ℚ := 1
  let gap : ℚ := 5
  let thicknesses : List ℚ := [1, 1/2, 1/2]
  let zPos0 : ℚ := -100 + targetThickness + 1
  let stack := openMuonLoop gap thicknesses zPos0
  let dtThickness : ℚ := 100
  let dtZPos : ℚ := stack.2 + 10 + dtThickness / 2
  { targetZ := stack.1,
    gas := some { thickness := dtThickness, zPos := dtZPos },
    fDTZCenter := dtZPos,
    fDTZStart := dtZPos - dtThickness / 2,
    fDTZEnd := dtZPos + dtThickness / 2,
    fieldScope := FieldScope.volumeLocalGas }

/-- The four supported values of `fDetectorType`
(DetectorConstruction.cc, lines 92-116). -/
inductive DetectorType where
  | muonTarget
  | openMuonTarget
  | carbonStack
  | alternatingLayers
  deriving DecidableEq

/-- Embeds the dispatch in `DetectorConstruction::Construct`
(DetectorConstruction.cc, lines 92-116). -/
def construct : DetectorType → GeometryResult
  | DetectorType.muonTarget => constructStackedTargetGeometry
  | DetectorType.openMuonTarget => constructOpenMuonTarget
  | DetectorType.carbonStack => constructCarbonStack
  | DetectorType.alternatingLayers => constructAlternatingLayers

/-- State of `EventAction` after `BeginOfEventAction` (from an arbitrary
prior state `s0`) followed by `n` calls to `SetKeepEvent(true)`, the
creation-classification signals of one event. -/
def eventStateAfter (s0 : EventActionState) : Nat → EventActionState
  | 0 => EventAction.beginOfEventAction s0
  | n + 1 => EventAction.setKeepEvent (eventStateAfter s0 n) true

/-- Initial per-callback state: no fills yet, retention flag down. -/
def st0 : SteppingOutcome :=
  { analysis := { fills := [] }, eventAction := { fKeepThisEvent := false } }

/-- A mu+ record at step ordinal 2, not terminal: a tracked-species record
that is not a creation record. -/
def muPlusStep2 : StepRecord :=
  { particleName := "mu+", currentStepNumber := 2,
    trackStatus := TrackStatus.fAlive,
    posX := 0, posY := 0, posZ := 0, kineticEnergy := 10,
    preStepVolume := 0, preStepVolumeName := "World" }

/-- A mu- record terminating (fStopAndKill) at (3, 4, -50) in open space:
its pre-step volume identity 99 is absent from any registry used below. -/
def muMinusStopOpen : StepRecord :=
  { particleName := "mu-", currentStepNumber := 4,
    trackStatus := TrackStatus.fStopAndKill,
    posX := 3, posY := 4, posZ := -50, kineticEnergy := 1,
    preStepVolume := 99, preStepVolumeName := "World" }

/-- A mu- record terminating inside the D-T gas region (pre-step volume
named "DTGasLogical", identity absent from the registry). -/
def muMinusStopInGas : StepRecord :=
  { particleName := "mu-", currentStepNumber := 7,
    trackStatus := TrackStatus.fStopAndKill,
    posX := 0, posY := 0, posZ := -30, kineticEnergy := 1,
    preStepVolume := 99, preStepVolumeName := "DTGasLogical" }

theorem resolveScan_not_mem (vol : VolId) :
    ∀ (l : List VolId) (k : Nat), vol ∉ l → resolveScan vol l k = -1
  | [], _, _ => rfl
  | t :: rest, k, h => by
    have h1 : vol ≠ t := fun he => h (he ▸ List.mem_cons_self t rest)
    have h2 : vol ∉ rest := fun hm => h (List.mem_cons_of_mem t hm)
    simp only [resolveScan, if_neg h1]
    exact resolveScan_not_mem vol rest (k + 1) h2

theorem resolveScan_get_of_nodup (vol : VolId) :
    ∀ (l : List VolId) (k : Nat), l.Nodup → ∀ (i : Fin l.length),
      vol = l.get i → resolveScan vol l k = (k : Int) + (i : Nat)
  | [], _, _, i, _ => absurd i.isLt (by simp)
  | t :: rest, k, hnd, ⟨0, _⟩, hv => by
    simp only [List.get] at hv
    simp [resolveScan, hv]
  | t :: rest, k, hnd, ⟨j + 1, hj⟩, hv => by
    have hrest : rest.Nodup := (List.nodup_cons.mp hnd).2
    have htmem : t ∉ rest := (List.nodup_cons.mp hnd).1
    have hvmem : vol ∈ rest := by
      rw [hv]; exact List.get_mem rest _ _
    have hne : vol ≠ t := fun he => htmem (he ▸ hvmem)
    have ih := resolveScan_get_of_nodup vol rest (k + 1) hrest
      ⟨j, Nat.lt_of_succ_lt_succ hj⟩ hv
    simp only [resolveScan, if_neg hne, ih]
    push_cast
    ring

/-- C7: spatial index resolution scans the target registry in construction
order; for every volume absent from the registry it returns −1 (it is a
total function, so no error is raised), and on a duplicate-free registry
it returns each registered volume its construction-order index. -/
theorem spatial_index_resolution_correct (fTargetVolumes : List VolId) (vol : VolId) :
    (vol ∉ fTargetVolumes → resolveTargetIndex fTargetVolumes vol = -1) ∧
    (fTargetVolumes.Nodup → ∀ i : Fin fTargetVolumes.length,
      resolveTargetIndex fTargetVolumes (fTargetVolumes.get i) = ((i : Nat) : Int)) := by
  constructor
  · intro h
    exact resolveScan_not_mem vol fTargetVolumes 0 h
  · intro hnd i
    have h := resolveScan_get_of_nodup (fTargetVolumes.get i) fTargetVolumes 0 hnd i rfl
    simpa [resolveTargetIndex] using h

/-- Witness for C7: on the registry [10, 20, 30], the absent identity 7
resolves to −1 and the entry at index 1 resolves to 1. -/
theorem spatial_index_resolution_correct_witness :
    resolveTargetIndex [10, 20, 30] 7 = -1 ∧
    resolveTargetIndex [10, 20, 30] ([10, 20, 30].get ⟨1, by decide⟩) = ((1 : Nat) : Int) := by
  refine ⟨(spatial_index_resolution_correct [10, 20, 30] 7).1 (by decide), ?_⟩
  exact (spatial_index_resolution_correct [10, 20, 30] 7).2 (by decide) ⟨1, by decide⟩

/-- C10: `GetTargetNVolume(n)` returns the null pointer for every index at
or beyond the registry size, and the n-th registered volume for every
in-range index; the embedding is over an arbitrary registry content, hence
covers every geometry variant. -/
theorem getTargetNVolume_safe (fTargetVolumes : List VolId) (n : Nat) :
    (fTargetVolumes.length ≤ n → GetTargetNVolume fTargetVolumes n = none) ∧
    (∀ h : n < fTargetVolumes.length,
      GetTargetNVolume fTargetVolumes n = some (fTargetVolumes.get ⟨n, h⟩)) := by
  constructor
  · intro h
    rw [GetTargetNVolume, dif_neg (Nat.not_lt.mpr h)]
  · intro h
    rw [GetTargetNVolume, dif_pos h]

/-- Witness for C10: on the registry [10, 20, 30], index 5 yields the null
pointer and index 2 yields the third registered volume. -/
theorem getTargetNVolume_safe_witness :
    GetTargetNVolume [10, 20, 30] 5 = none ∧
    GetTargetNVolume [10, 20, 30] 2 = some 30 := by
  refine ⟨(getTargetNVolume_safe [10, 20, 30] 5).1 (by decide), ?_⟩
  exact (getTargetNVolume_safe [10, 20, 30] 2).2 (by decide)

/-- C8: the per-event retention state is monotonic: after reset it is
Unmarked (false); with zero creation signals it stays Unmarked and the
event is not kept; after at least one creation signal it is Retain (true),
and further signals leave it Retain; at event end the engine is asked to
keep the event exactly when the state is Retain. -/
theorem eventFilter_monotonic (s0 : EventActionState) (n : Nat) :
    (eventStateAfter s0 0).fKeepThisEvent = false ∧
    EventAction.endOfEventAction (eventStateAfter s0 0) = false ∧
    (1 ≤ n → (eventStateAfter s0 n).fKeepThisEvent = true) ∧
    (EventAction.setKeepEvent (eventStateAfter s0 n) true).fKeepThisEvent = true ∧
    (EventAction.endOfEventAction (eventStateAfter s0 n) = true ↔
      (eventStateAfter s0 n).fKeepThisEvent = true) := by
  refine ⟨rfl, rfl, ?_, rfl, Iff.rfl⟩
  intro h
  match n, h with
  | m + 1, _ => rfl

/-- Witness for C8: starting from a previously marked state, reset followed
by two creation signals leaves the state Retain. -/
theorem eventFilter_monotonic_witness :
    (eventStateAfter { fKeepThisEvent := true } 2).fKeepThisEvent = true :=
  (eventFilter_monotonic { fKeepThisEvent := true } 2).2.2.1 (by decide)

/-- C2 counterexample: the mu+ record with step ordinal 2 (not a creation
record) drives the retention flag from Unmarked to Retain by itself,
because `SetKeepEvent(true)` is executed before the step-ordinal test. -/
theorem retention_signal_on_noncreation_step :
    muPlusStep2.currentStepNumber ≠ 1 ∧
    st0.eventAction.fKeepThisEvent = false ∧
    (UserSteppingAction (fun q => q) [] muPlusStep2 st0).eventAction.fKeepThisEvent = true := by
  decide

/-- C2 amended: the step classifier signals the event-retention filter to
transition to Retain on every tracked-species (mu+ or mu-) record,
regardless of step ordinal; the signal is not restricted to creation
records. -/
theorem retention_signal_on_every_muon_step (sqrt : ℚ → ℚ)
    (fTargetVolumes : List VolId) (step : StepRecord) (st : SteppingOutcome)
    (h : step.particleName = "mu+" ∨ step.particleName = "mu-") :
    (UserSteppingAction sqrt fTargetVolumes step st).eventAction.fKeepThisEvent = true := by
  have hcond : ¬(step.particleName ≠ "mu+" ∧ step.particleName ≠ "mu-") := by
    rcases h with h | h <;> simp [h]
  unfold UserSteppingAction
  rw [if_neg hcond]
  dsimp only
  split_ifs <;> rfl

/-- Witness for C2 amended: the concrete ordinal-2 record signals Retain. -/
theorem retention_signal_on_every_muon_step_witness :
    (UserSteppingAction (fun q => q) [] muPlusStep2 st0).eventAction.fKeepThisEvent = true :=
  retention_signal_on_every_muon_step (fun q => q) [] muPlusStep2 st0 (Or.inl rfl)

/-- C9: for every tracked-muon termination record whose pre-termination
volume resolves to −1, the classifier still appends the stopping z
(histogram 1) and the radial distance sqrt(x²+y²) (histogram 3), and no
"stop target index" sample (histogram 2) is appended; the embedded
classifier is a total function, so no error is raised. -/
theorem unresolved_stop_keeps_z_and_radius (sqrt : ℚ → ℚ)
    (fTargetVolumes : List VolId) (step : StepRecord) (st : SteppingOutcome)
    (hmu : step.particleName = "mu+" ∨ step.particleName = "mu-")
    (hterm : step.trackStatus = TrackStatus.fStopAndKill)
    (hres : resolveTargetIndex fTargetVolumes step.preStepVolume = -1) :
    (1, step.posZ) ∈ (UserSteppingAction sqrt fTargetVolumes step st).analysis.fills ∧
    (3, sqrt (step.posX * step.posX + step.posY * step.posY)) ∈
      (UserSteppingAction sqrt fTargetVolumes step st).analysis.fills ∧
    (∀ v : ℚ, (2, v) ∈ (UserSteppingAction sqrt fTargetVolumes step st).analysis.fills →
      (2, v) ∈ st.analysis.fills) := by
  have hcond : ¬(step.particleName ≠ "mu+" ∧ step.particleName ≠ "mu-") := by
    rcases hmu with h | h <;> simp [h]
  have hneg : ¬(0 : Int) ≤ resolveTargetIndex fTargetVolumes step.preStepVolume := by
    rw [hres]; decide
  by_cases h1 : step.currentStepNumber = 1 <;>
  by_cases h2 : step.preStepVolumeName = "DTGasLogical" <;>
    simp [UserSteppingAction, hcond, hterm, h1, h2, if_neg hneg, FillH1, Prod.ext_iff]

/-- Witness for C9: the mu- record stopping at (3, 4, -50) in open space
against the registry [10, 20, 30] gets its z and radius samples but no
target-index sample. -/
theorem unresolved_stop_keeps_z_and_radius_witness :
    (1, ((-50 : ℚ))) ∈
      (UserSteppingAction (fun q => q) [10, 20, 30] muMinusStopOpen st0).analysis.fills ∧
    (3, (fun q : ℚ => q) (muMinusStopOpen.posX * muMinusStopOpen.posX +
        muMinusStopOpen.posY * muMinusStopOpen.posY)) ∈
      (UserSteppingAction (fun q => q) [10, 20, 30] muMinusStopOpen st0).analysis.fills ∧
    (∀ v : ℚ, (2, v) ∈
        (UserSteppingAction (fun q => q) [10, 20, 30] muMinusStopOpen st0).analysis.fills →
      (2, v) ∈ st0.analysis.fills) :=
  unresolved_stop_keeps_z_and_radius (fun q => q) [10, 20, 30] muMinusStopOpen st0
    (Or.inr rfl) rfl (by decide)

/-- C1 (code-bug evidence): `RunAction::BeginOfRunAction` creates exactly
FOUR histograms, receiving ids 0, 1, 2, 3 — not six — while the step
classifier fills ids 4 and 5 for a muon stopping in the D-T gas region;
ids 4 and 5 are not among the ids created at run start. -/
theorem run_start_creates_only_four_histograms :
    (RunAction.beginOfRunAction RunAction.initState).2.length = 4 ∧
    createdH1Ids RunAction.initState = [0, 1, 2, 3] ∧
    (4, (-30 : ℚ)) ∈
      (UserSteppingAction (fun q => q) [] muMinusStopInGas st0).analysis.fills ∧
    (5, (0 : ℚ)) ∈
      (UserSteppingAction (fun q => q) [] muMinusStopInGas st0).analysis.fills ∧
    4 ∉ createdH1Ids RunAction.initState ∧
    5 ∉ createdH1Ids RunAction.initState := by
  refine ⟨rfl, rfl, ?_, ?_, by decide, by decide⟩ <;>
    norm_num [UserSteppingAction, FillH1, muMinusStopInGas, st0,
      resolveTargetIndex, resolveScan]

/-- C6 (code-bug evidence): `RunAction` never creates the secondary
muon-stopping histogram (`fMuonStoppingHist` stays the null pointer after
`BeginOfRunAction`), so on every tracked-muon track end the guarded fill in
`TrackingAction::PostUserTrackingAction` appends nothing. -/
theorem track_end_secondary_histogram_never_filled (z : ℚ) :
    RunAction.getMuonStoppingHistogram
      (RunAction.beginOfRunAction RunAction.initState).1 = none ∧
    TrackingAction.postUserTrackingAction
      (some (RunAction.beginOfRunAction RunAction.initState).1) "mu-" z = none ∧
    TrackingAction.postUserTrackingAction
      (some (RunAction.beginOfRunAction RunAction.initState).1) "mu+" z = none := by
  exact ⟨rfl, rfl, rfl⟩

/-- C3 counterexample: the alternating tungsten/graphite variant does NOT
attach a global field region; it attaches the volume-local field manager to
the D-T gas volume only. -/
theorem alternating_field_not_global :
    constructAlternatingLayers.fieldScope ≠ FieldScope.global := by
  decide

/-- C3 amended: only the carbon-stack variant attaches a global field
region; the alternating-layers variant, like both converter-style variants
(compact stacked target and open/gradient target), attaches a volume-local
field region scoped to the downstream gas volume. -/
theorem field_attachment_policy :
    constructCarbonStack.fieldScope = FieldScope.global ∧
    constructAlternatingLayers.fieldScope = FieldScope.volumeLocalGas ∧
    constructStackedTargetGeometry.fieldScope = FieldScope.volumeLocalGas ∧
    constructOpenMuonTarget.fieldScope = FieldScope.volumeLocalGas := by
  exact ⟨rfl, rfl, rfl, rfl⟩

/-- C4 counterexample: the alternating-layers variant appends a 10 cm gas
region (centered at 57.5 mm) but never assigns the recorded bounds, which
keep their header defaults 0, so zEnd − zStart (= 0) differs from the
configured gas thickness (100 mm). -/
theorem alternating_gas_bounds_not_recorded :
    constructAlternatingLayers.gas = some { thickness := 100, zPos := 115 / 2 } ∧
    constructAlternatingLayers.fDTZStart = 0 ∧
    constructAlternatingLayers.fDTZCenter = 0 ∧
    constructAlternatingLayers.fDTZEnd = 0 ∧
    constructAlternatingLayers.fDTZEnd - constructAlternatingLayers.fDTZStart ≠ 100 := by
  norm_num [constructAlternatingLayers, alternatingLoop]

/-- C4 amended: the two variants that record gas-region bounds (compact
stacked target and open/gradient target) record zStart = center −
thickness/2 and zEnd = center + thickness/2, so zStart ≤ zCenter ≤ zEnd and
zEnd − zStart equals the configured 10 cm thickness; the alternating-layers
variant appends a gas region without recording bounds. -/
theorem gas_bounds_recorded_converter_variants :
    constructStackedTargetGeometry.gas =
      some { thickness := 100, zPos := constructStackedTargetGeometry.fDTZCenter } ∧
    constructStackedTargetGeometry.fDTZStart =
      constructStackedTargetGeometry.fDTZCenter - 100 / 2 ∧
    constructStackedTargetGeometry.fDTZEnd =
      constructStackedTargetGeometry.fDTZCenter + 100 / 2 ∧
    constructStackedTargetGeometry.fDTZStart ≤ constructStackedTargetGeometry.fDTZCenter ∧
    constructStackedTargetGeometry.fDTZCenter ≤ constructStackedTargetGeometry.fDTZEnd ∧
    constructStackedTargetGeometry.fDTZEnd - constructStackedTargetGeometry.fDTZStart = 100 ∧
    constructOpenMuonTarget.gas =
      some { thickness := 100, zPos := constructOpenMuonTarget.fDTZCenter } ∧
    constructOpenMuonTarget.fDTZStart = constructOpenMuonTarget.fDTZCenter - 100 / 2 ∧
    constructOpenMuonTarget.fDTZEnd = constructOpenMuonTarget.fDTZCenter + 100 / 2 ∧
    constructOpenMuonTarget.fDTZStart ≤ constructOpenMuonTarget.fDTZCenter ∧
    constructOpenMuonTarget.fDTZCenter ≤ constructOpenMuonTarget.fDTZEnd ∧
    constructOpenMuonTarget.fDTZEnd - constructOpenMuonTarget.fDTZStart = 100 := by
  norm_num [constructStackedTargetGeometry, constructOpenMuonTarget, openMuonLoop]

/-- C5 counterexample: in the carbon-stack build with 5 plates of 2 mm and
10 mm gaps, the first plate center is not −23 mm and the last is not
+23 mm. -/
theorem carbonStack_centers_not_pm23 :
    constructCarbonStack.targetZ.head? ≠ some (-23) ∧
    constructCarbonStack.targetZ.getLast? ≠ some 23 := by
  norm_num [constructCarbonStack, List.range_succ]

/-- C5 amended: the carbon-stack build places the plate centers at −24,
−12, 0, 12, 24 mm (first = −(5·2+4·10)/2 + 1 = −24 mm, last = +24 mm) and
registers exactly 5 volumes. -/
theorem carbonStack_layout :
    constructCarbonStack.targetZ = [-24, -12, 0, 12, 24] ∧
    constructCarbonStack.targetZ.length = 5 := by
  norm_num [constructCarbonStack, List.range_succ]

end ActiveTargetSim
